import Mathlib

/-!
Shallow embedding of `openaicli/cli.py` (raiyanyahya/openai-cli): the
credential store (`get_api_key`, the `cli` group callback) and the request
dispatcher (completion request construction for `generate_text`,
`summarize`, `find_bug`, `grammar_correct`, response field extraction, and
the `get_quota` handler).  File-system state, the interactive prompt, and
HTTP outcomes are passed explicitly; a Python exception that no `try`
block catches is modelled as a `crash` outcome.

The configuration store follows `configparser` with its default
`BasicInterpolation`: storing a value checks its interpolation syntax and
raises `ValueError` on a stray `%`; `config.write` emits the raw value
(newlines indented as continuation lines) and the next `config.read`
strips each value line and joins them; `config.get` interpolates the raw
stored value (`%%` becomes `%`, `%(name)s` is looked up in the section,
bad syntax or a missing name raises).  Two deliberate scope notes: files
are modelled without a `DEFAULT` section (the program never writes one),
and a column-zero line arising inside a written value (possible only when
the credential contains carriage returns) is collapsed to a read failure,
although the INI parser may instead accept some such lines as new
options; no theorem below depends on that branch.
-/

/-- Python `str.strip()` predicate on the ASCII whitespace characters it
removes. -/
def pyIsSpace (c : Char) : Bool :=
  c == ' ' || c == '\t' || c == '\n' || c == '\r' || c == '\x0b' || c == '\x0c'

/-- Python `str.strip()`: drop leading and trailing whitespace. -/
def pyStrip (s : String) : String :=
  String.mk (((s.data.dropWhile pyIsSpace).reverse.dropWhile pyIsSpace).reverse)

/-- Drop leading whitespace from a character list (`str.lstrip()`). -/
def lstripChars (l : List Char) : List Char := l.dropWhile pyIsSpace

/-- Drop trailing whitespace from a character list (`str.rstrip()`). -/
def rstripChars (l : List Char) : List Char := (l.reverse.dropWhile pyIsSpace).reverse

/-- Drop leading and trailing whitespace (`str.strip()`). -/
def stripChars (l : List Char) : List Char := rstripChars (lstripChars l)

/-- One INI section: key/value pairs holding RAW stored values (the
parser's internal option map, before any interpolation). -/
abbrev IniSection := List (String × String)

/-- Parsed contents of `config.ini`: sections by name (raw values). -/
abbrev ConfigData := List (String × IniSection)

/-- First-match association lookup (the dictionary lookup `configparser`
performs). -/
def assoc_find {α : Type} : List (String × α) → String → Option α
  | [], _ => none
  | (k, v) :: rest, key => if key = k then some v else assoc_find rest key

/-- Raw stored value under a section/key — the parser's internal state
before interpolation.  `config.get` applies `BasicInterpolation` on top
of this (see `config_get`); this raw lookup is used to state which value
a file holds. -/
def cfg_get (cfg : ConfigData) (sec key : String) : Option String :=
  match assoc_find cfg sec with
  | none => none
  | some s => assoc_find s key

/-- Left-to-right scan for `value.replace('%%', '')`: the flag records a
pending `%` not yet emitted; a second `%` discards the pair, any other
character flushes the pending `%` before it. -/
def rdpGo : Bool → List Char → List Char
  | false, [] => []
  | true, [] => ['%']
  | false, c :: rest => if c = '%' then rdpGo true rest else c :: rdpGo false rest
  | true, c :: rest => if c = '%' then rdpGo false rest else '%' :: c :: rdpGo false rest

/-- Python `value.replace('%%', '')` — the first phase of
`BasicInterpolation.before_set`'s syntax check. -/
def removeDoublePercent (l : List Char) : List Char := rdpGo false l

/-- Scanner state for removing `%(name)s` references, mirroring the
left-to-right sub of the regex `%\(([^)]+)\)s`. -/
inductive SubMode where
  | text
  | afterPct
  | inRef (seen : List Char)
  | afterRParen (nm : List Char)
deriving DecidableEq, Repr

/-- Second phase of `before_set`'s check: delete every `%(name)s`
occurrence (regex sub with the empty string), leaving all other
characters in place.  A failed reference attempt keeps its characters. -/
def subRefsGo : SubMode → List Char → List Char
  | SubMode.text, [] => []
  | SubMode.text, c :: rest =>
      if c = '%' then subRefsGo SubMode.afterPct rest
      else c :: subRefsGo SubMode.text rest
  | SubMode.afterPct, [] => ['%']
  | SubMode.afterPct, c :: rest =>
      if c = '(' then subRefsGo (SubMode.inRef []) rest
      else if c = '%' then '%' :: subRefsGo SubMode.afterPct rest
      else '%' :: c :: subRefsGo SubMode.text rest
  | SubMode.inRef seen, [] => '%' :: '(' :: seen
  | SubMode.inRef seen, c :: rest =>
      if c = ')' then
        if seen = [] then '%' :: '(' :: ')' :: subRefsGo SubMode.text rest
        else subRefsGo (SubMode.afterRParen seen) rest
      else subRefsGo (SubMode.inRef (seen ++ [c])) rest
  | SubMode.afterRParen nm, [] => '%' :: '(' :: (nm ++ [')'])
  | SubMode.afterRParen nm, c :: rest =>
      if c = 's' then subRefsGo SubMode.text rest
      else
        ('%' :: '(' :: (nm ++ [')'])) ++
          (if c = '%' then subRefsGo SubMode.afterPct rest
           else c :: subRefsGo SubMode.text rest)

/-- `BasicInterpolation.before_set`'s syntax check, run by
`config['openai'] = {'api_key': value}`: remove every `%%` and every
`%(name)s`, then a remaining `%` raises `ValueError`. -/
def before_set_ok (v : String) : Bool :=
  decide ('%' ∉ subRefsGo SubMode.text (removeDoublePercent v.data))

/-- Scanner state for `BasicInterpolation._interpolate_some`. -/
inductive IMode where
  | text
  | afterPct
  | inRef (seen : List Char)
  | afterRParen (nm : List Char)
deriving DecidableEq, Repr

/-- One interpolation level of `_interpolate_some`: `%%` yields `%`, a
complete `%(name)s` looks the lowercased name up in the section's raw
map (missing name: `InterpolationMissingOptionError`, here `none`) and —
when the found value itself contains `%` — defers to `deeper` for the
next depth level; any other use of `%` is an
`InterpolationSyntaxError` (`none`). -/
def interpLevel (sec : IniSection) (deeper : List Char → Option (List Char)) :
    IMode → List Char → Option (List Char)
  | IMode.text, [] => some []
  | IMode.text, c :: rest =>
      if c = '%' then interpLevel sec deeper IMode.afterPct rest
      else (interpLevel sec deeper IMode.text rest).map (fun w => c :: w)
  | IMode.afterPct, [] => none
  | IMode.afterPct, c :: rest =>
      if c = '%' then (interpLevel sec deeper IMode.text rest).map (fun w => '%' :: w)
      else if c = '(' then interpLevel sec deeper (IMode.inRef []) rest
      else none
  | IMode.inRef _, [] => none
  | IMode.inRef seen, c :: rest =>
      if c = ')' then
        if seen = [] then none
        else interpLevel sec deeper (IMode.afterRParen seen) rest
      else interpLevel sec deeper (IMode.inRef (seen ++ [c])) rest
  | IMode.afterRParen _, [] => none
  | IMode.afterRParen nm, c :: rest =>
      if c = 's' then
        match assoc_find sec (String.mk (nm.map Char.toLower)) with
        | none => none
        | some v =>
            if '%' ∈ v.data then
              match deeper v.data with
              | none => none
              | some w => (interpLevel sec deeper IMode.text rest).map (fun t => w ++ t)
            else (interpLevel sec deeper IMode.text rest).map (fun t => v.data ++ t)
      else none

/-- `BasicInterpolation.before_get` with its depth bound
(`MAX_INTERPOLATION_DEPTH = 10`): fuel counts the remaining allowed
levels, and exhaustion models `InterpolationDepthError`. -/
def interpolate (sec : IniSection) : Nat → List Char → Option (List Char)
  | 0, _ => none
  | fuel + 1, l => interpLevel sec (interpolate sec fuel) IMode.text l

/-- `config.get(sec, key)`: find the section and key (raising, here
`none`, on `NoSectionError`/`NoOptionError`), then interpolate the raw
stored value. -/
def config_get (cfg : ConfigData) (sec key : String) : Option String :=
  match assoc_find cfg sec with
  | none => none
  | some s =>
      match assoc_find s key with
      | none => none
      | some raw => (interpolate s 10 raw.data).map String.mk

/-- A credential string the INI store round-trips unchanged: no `%` (no
interpolation), no newline or carriage return (no continuation lines),
and no leading or trailing whitespace (nothing for the parser to
strip). -/
def cleanCredential (v : String) : Bool :=
  decide ('%' ∉ v.data) && decide ('\n' ∉ v.data) && decide ('\r' ∉ v.data) &&
  decide (lstripChars v.data = v.data) && decide (rstripChars v.data = v.data)

/-- What `config.write` emits for a value: each newline is followed by a
tab so continuation lines are indented (`value.replace('\n', '\n\t')`). -/
def writeEscape : List Char → List Char
  | [] => []
  | c :: rest =>
      if c = '\n' then '\n' :: '\t' :: writeEscape rest
      else c :: writeEscape rest

/-- Scan for the universal-newlines translation: the flag records that a
`\r` was just replaced by `\n`, so an immediately following `\n` is
swallowed. -/
def univNLGo : Bool → List Char → List Char
  | _, [] => []
  | skipNL, c :: rest =>
      if skipNL ∧ c = '\n' then univNLGo false rest
      else if c = '\r' then '\n' :: univNLGo true rest
      else c :: univNLGo false rest

/-- Universal-newlines translation applied when the file is reopened in
text mode: `\r\n` and lone `\r` both become `\n`. -/
def univNL (l : List Char) : List Char := univNLGo false l

/-- Split a character stream into lines at `\n`. -/
def splitOnNL : List Char → List (List Char)
  | [] => [[]]
  | c :: rest =>
      if c = '\n' then [] :: splitOnNL rest
      else
        match splitOnNL rest with
        | ln :: lns => (c :: ln) :: lns
        | [] => [[c]]

/-- How the INI parser treats one line following an option line. -/
inductive LineKind where
  | chunk (content : List Char)
  | skip
  | other
deriving DecidableEq, Repr

/-- Classify a line under an option: a blank line contributes an empty
value line (`empty_lines_in_values`), a full-line comment (`#` or `;`
after stripping) is skipped, an indented line is a continuation
contributing its stripped content, and a column-zero line ends the value
(collapsed to a read failure, see the header note). -/
def lineKind (l : List Char) : LineKind :=
  let s := stripChars l
  if s = [] then LineKind.chunk []
  else if s.head? = some '#' ∨ s.head? = some ';' then LineKind.skip
  else
    match l with
    | [] => LineKind.other
    | c :: _ => if pyIsSpace c then LineKind.chunk s else LineKind.other

/-- Collect the value lines following the option line; `none` models the
collapsed column-zero-line read failure. -/
def collectChunks : List (List Char) → Option (List (List Char))
  | [] => some []
  | l :: ls =>
      match lineKind l with
      | LineKind.chunk c => (collectChunks ls).map (fun cs => c :: cs)
      | LineKind.skip => collectChunks ls
      | LineKind.other => none

/-- Join value lines with newlines (`'\n'.join(...)`). -/
def joinNL : List (List Char) → List Char
  | [] => []
  | [l] => l
  | l :: ls => l ++ '\n' :: joinNL ls

/-- The raw value the next `config.read` stores for a value the program
wrote: escape newlines as `config.write` does, reopen under universal
newlines, split into lines, strip the option line's value and each
continuation line, join with newlines and strip the result's tail
(`_join_multiline_values`). -/
def written_read_back (v : String) : Option String :=
  match splitOnNL (univNL (writeEscape v.data)) with
  | [] => none
  | l0 :: tail =>
      match collectChunks tail with
      | none => none
      | some cs => some (String.mk (rstripChars (joinNL (stripChars l0 :: cs))))

/-- A `config.ini` on disk: either an arbitrary existing file given by
its parsed raw sections, or the file `get_api_key` itself wrote
(`[openai]` with one `api_key` entry). -/
inductive StoredFile where
  | iniData (cfg : ConfigData)
  | written (value : String)
deriving DecidableEq, Repr

/-- `config.read(CONFIG_FILE_PATH)`: an arbitrary existing file yields
its sections; a file the program wrote re-parses to one `openai` section
whose `api_key` holds the written value after the write/read
round-trip.  `none` models a raised parse error. -/
def read_config : StoredFile → Option ConfigData
  | StoredFile.iniData cfg => some cfg
  | StoredFile.written v =>
      (written_read_back v).map (fun w => [("openai", [("api_key", w)])])

/-- File-system state visible to the program: the contents of
`config.ini`, or `none` when the file does not exist. -/
structure FsState where
  file : Option StoredFile
deriving DecidableEq, Repr

/-- Result of a `get_api_key` call: the returned string, or an uncaught
exception. -/
inductive KeyOutcome where
  | ok (value : String)
  | crash
deriving DecidableEq, Repr

/-- One run of `get_api_key`: outcome, resulting file-system state, and
how many interactive prompts and file writes it performed. -/
structure KeyRun where
  outcome : KeyOutcome
  state : FsState
  prompts : Nat
  writes : Nat
deriving DecidableEq, Repr

/-- `get_api_key()` from `cli.py`.  When `config.ini` is missing it
prompts once (`input(...)`), then `config['openai'] = {'api_key': v}`
checks the value's interpolation syntax — a stray `%` raises
`ValueError` before the file is opened, so nothing is written — and
otherwise the file is written unconditionally, even for an empty value.
When the file exists it is read (a parse failure raises) and
`config.get('openai', 'api_key')` is called, which raises on a missing
section/key or an interpolation error. -/
def get_api_key (st : FsState) (promptInput : String) : KeyRun :=
  match st.file with
  | none =>
      if before_set_ok promptInput then
        { outcome := KeyOutcome.ok promptInput,
          state := ⟨some (StoredFile.written promptInput)⟩,
          prompts := 1, writes := 1 }
      else
        { outcome := KeyOutcome.crash, state := st, prompts := 1, writes := 0 }
  | some sf =>
      match read_config sf with
      | none => { outcome := KeyOutcome.crash, state := st, prompts := 0, writes := 0 }
      | some cfg =>
          match config_get cfg "openai" "api_key" with
          | none => { outcome := KeyOutcome.crash, state := st, prompts := 0, writes := 0 }
          | some v => { outcome := KeyOutcome.ok v, state := st, prompts := 0, writes := 0 }

/-- Result of the `cli` group callback: proceed with the key, abort with
the no-key message (`raise click.Abort()`), or crash from `get_api_key`. -/
inductive CliOutcome where
  | proceed (key : String)
  | abort
  | crash
deriving DecidableEq, Repr

/-- The `cli()` group callback: resolve the key, then
`if not openai.api_key: ... raise click.Abort()` (the empty string is the
only falsy string value `get_api_key` can return). -/
def cli_setup (st : FsState) (promptInput : String) : CliOutcome × FsState :=
  let r := get_api_key st promptInput
  match r.outcome with
  | KeyOutcome.crash => (CliOutcome.crash, r.state)
  | KeyOutcome.ok k => if k = "" then (CliOutcome.abort, r.state) else (CliOutcome.proceed k, r.state)

/-- Keyword arguments a command passes to `openai.Completion.create` /
`openai.Image.create`; `none` means the call site does not pass the
parameter at all.  `stop := some none` models passing `stop=None`. -/
structure CompletionArgs where
  engine : Option String := none
  prompt : Option String := none
  max_tokens : Option Nat := none
  n : Option Nat := none
  stop : Option (Option String) := none
  temperature : Option ℚ := none
  model : Option String := none
  size : Option String := none
deriving DecidableEq, Repr

/-- The arguments `generate_text` passes to `openai.Completion.create`. -/
def generate_text_request (prompt model : String) (max_tokens : Nat) (temperature : ℚ) :
    CompletionArgs :=
  { engine := some model, prompt := some prompt, max_tokens := some max_tokens,
    n := some 1, stop := some none, temperature := some temperature }

/-- The arguments `summarize` passes to `openai.Completion.create`: the
call site passes no `temperature`. -/
def summarize_request (text model : String) (max_length : Nat) : CompletionArgs :=
  { engine := some model,
    prompt := some ("Please summarize the following text:\n\n" ++ text ++ "\n\nSummary:"),
    max_tokens := some max_length, n := some 1, stop := some none }

/-- The arguments `find_bug` passes to `openai.Completion.create`: the
engine is the literal `"davinci-codex"`. -/
def find_bug_request (code language : String) (max_tokens : Nat) (temperature : ℚ) :
    CompletionArgs :=
  { engine := some "davinci-codex",
    prompt := some ("Find a bug in the following " ++ language ++ " code:\n\n" ++ code
      ++ "\n\nBug description:"),
    max_tokens := some max_tokens, n := some 1, stop := some none,
    temperature := some temperature }

/-- The arguments `grammar_correct` passes to `openai.Completion.create`:
`max_tokens=2048` and `temperature=0.5` are hard-coded. -/
def grammar_correct_request (text model : String) : CompletionArgs :=
  { engine := some model,
    prompt := some ("Please correct the following text for grammar errors:\n" ++ text),
    max_tokens := some 2048, n := some 1, stop := some none,
    temperature := some (0.5 : ℚ) }

/-- Checks that a completion request populates engine, prompt and
max-tokens, carries the fixed `n=1` and `stop=None`, and passes no
image-endpoint parameter (`model`, `size`). -/
def completion_core_only (a : CompletionArgs) : Bool :=
  a.engine.isSome && a.prompt.isSome && a.max_tokens.isSome &&
  a.n == some 1 && a.stop == some none && a.model == none && a.size == none

/-- One element of a completion response's `choices` list. -/
structure Choice where
  text : String
deriving DecidableEq, Repr

/-- A completion response body: its `choices` list. -/
structure CompletionResponse where
  choices : List Choice
deriving DecidableEq, Repr

/-- One element of an image response's `data` list. -/
structure ImageDatum where
  url : String
deriving DecidableEq, Repr

/-- An image response body: its `data` list. -/
structure ImageResponse where
  data : List ImageDatum
deriving DecidableEq, Repr

/-- `response.choices[0].text.strip()` from the completion commands;
`none` models the `IndexError` on an empty `choices` list. -/
def completion_message (r : CompletionResponse) : Option String :=
  match r.choices.head? with
  | none => none
  | some c => some (pyStrip c.text)

/-- `response['data'][0]['url']` from `generate_image`; `none` models the
index error on an empty `data` list. -/
def image_url_of (r : ImageResponse) : Option String :=
  match r.data.head? with
  | none => none
  | some d => some d.url

/-- Outcome of an API call inside a `try` block: either the library
raised an exception or it returned a response of the given shape. -/
inductive ApiResult (α : Type) where
  | raised (msg : String)
  | ok (resp : α)
deriving DecidableEq, Repr

/-- What a command invocation does at top level: print a success line,
print the `except` branch's failure line, or crash uncaught. -/
inductive RunOutcome where
  | printedSuccess (msg : String)
  | printedFailure (msg : String)
  | crash
deriving DecidableEq, Repr

/-- The body of `generate_text`: the request/extract sequence sits inside
`try`, and `except Exception` prints the failure message. -/
def generate_text_run (r : ApiResult CompletionResponse) : RunOutcome :=
  match r with
  | ApiResult.raised e =>
      RunOutcome.printedFailure ("Failed to generate text. Error: " ++ e)
  | ApiResult.ok resp =>
      match completion_message resp with
      | none =>
          RunOutcome.printedFailure
            ("Failed to generate text. Error: list index out of range")
      | some m => RunOutcome.printedSuccess ("Output: " ++ m)

/-- The body of `generate_image`: the request and the
`response['data'][0]['url']` extraction sit inside `try`/`except`. -/
def generate_image_run (r : ApiResult ImageResponse) : RunOutcome :=
  match r with
  | ApiResult.raised e =>
      RunOutcome.printedFailure ("Failed to generate image. Error: " ++ e)
  | ApiResult.ok resp =>
      match image_url_of resp with
      | none =>
          RunOutcome.printedFailure
            ("Failed to generate image. Error: list index out of range")
      | some u => RunOutcome.printedSuccess ("![Generated Image](" ++ u ++ ")")

/-- The body of `summarize`: same `try`/`except` shape as
`generate_text` with its own messages. -/
def summarize_run (r : ApiResult CompletionResponse) : RunOutcome :=
  match r with
  | ApiResult.raised e =>
      RunOutcome.printedFailure ("Failed to summarize text. Error: " ++ e)
  | ApiResult.ok resp =>
      match completion_message resp with
      | none =>
          RunOutcome.printedFailure
            ("Failed to summarize text. Error: list index out of range")
      | some m => RunOutcome.printedSuccess ("Summary: " ++ m)

/-- The body of `find_bug`: same `try`/`except` shape with its own
messages. -/
def find_bug_run (r : ApiResult CompletionResponse) : RunOutcome :=
  match r with
  | ApiResult.raised e =>
      RunOutcome.printedFailure ("Failed to find bug. Error: " ++ e)
  | ApiResult.ok resp =>
      match completion_message resp with
      | none =>
          RunOutcome.printedFailure
            ("Failed to find bug. Error: list index out of range")
      | some m => RunOutcome.printedSuccess ("Bug Description: " ++ m)

/-- The body of `grammar_correct`: same `try`/`except` shape with its own
messages. -/
def grammar_correct_run (r : ApiResult CompletionResponse) : RunOutcome :=
  match r with
  | ApiResult.raised e =>
      RunOutcome.printedFailure ("Failed to correct grammar. Error: " ++ e)
  | ApiResult.ok resp =>
      match completion_message resp with
      | none =>
          RunOutcome.printedFailure
            ("Failed to correct grammar. Error: list index out of range")
      | some m => RunOutcome.printedSuccess ("Output: " ++ m)

/-- One row of the usage response's `data` list (`model`, `usage`,
`limit` fields, rendered as strings). -/
structure UsageRow where
  model : String
  usage : String
  limit : String
deriving DecidableEq, Repr

/-- A `/v1/usage` response body: the `data` field when present (`none`
models a body without it, on which `usage["data"]` raises `KeyError`). -/
structure UsageBody where
  dataField : Option (List UsageRow)
deriving DecidableEq, Repr

/-- Outcome of `requests.get` inside `get_quota`: a raised transport
exception, or a response with a status code and a body. -/
inductive HttpResult where
  | transportError (msg : String)
  | success (status : Nat) (body : UsageBody)
deriving DecidableEq, Repr

/-- What `get_quota` does: crash uncaught, print the status-code failure
line and return, or render the usage table. -/
inductive QuotaOutcome where
  | crash
  | httpFailure (code : Nat)
  | table (rows : List UsageRow)
deriving DecidableEq, Repr

/-- The body of `get_quota`: there is no `try` block, so a raised
transport exception propagates (crash); `if resp.status_code != 200`
prints the failure and returns before any body parsing; on status 200 it
indexes `usage["data"]`, crashing when the field is missing. -/
def get_quota (h : HttpResult) : QuotaOutcome :=
  match h with
  | HttpResult.transportError _ => QuotaOutcome.crash
  | HttpResult.success status body =>
      if status ≠ 200 then QuotaOutcome.httpFailure status
      else
        match body.dataField with
        | none => QuotaOutcome.crash
        | some rows => QuotaOutcome.table rows

/-- Structure eta: rebuilding a string from its characters is the
identity. -/
theorem String_mk_data (s : String) : String.mk s.data = s := rfl

/-- A value without `%` passes phase one of the `before_set` check
unchanged. -/
theorem removeDoublePercent_no_pct (l : List Char) (h : '%' ∉ l) :
    removeDoublePercent l = l := by
  unfold removeDoublePercent
  induction l with
  | nil => rfl
  | cons c rest ih =>
      rw [List.mem_cons] at h
      push_neg at h
      simp [rdpGo, Ne.symm h.1, ih h.2]

/-- A value without `%` passes phase two of the `before_set` check
unchanged. -/
theorem subRefsGo_text_no_pct (l : List Char) (h : '%' ∉ l) :
    subRefsGo SubMode.text l = l := by
  induction l with
  | nil => rfl
  | cons c rest ih =>
      rw [List.mem_cons] at h
      push_neg at h
      simp [subRefsGo, Ne.symm h.1, ih h.2]

/-- A value without `%` passes the `before_set` syntax check. -/
theorem before_set_ok_no_pct (v : String) (h : '%' ∉ v.data) :
    before_set_ok v = true := by
  unfold before_set_ok
  rw [removeDoublePercent_no_pct v.data h, subRefsGo_text_no_pct v.data h]
  exact decide_eq_true h

/-- Interpolating a value without `%` returns it unchanged. -/
theorem interpLevel_text_no_pct (sec : IniSection)
    (deeper : List Char → Option (List Char)) (l : List Char) (h : '%' ∉ l) :
    interpLevel sec deeper IMode.text l = some l := by
  induction l with
  | nil => rfl
  | cons c rest ih =>
      rw [List.mem_cons] at h
      push_neg at h
      simp [interpLevel, Ne.symm h.1, ih h.2]

/-- `before_get` on a value without `%` returns it unchanged at any
positive depth budget. -/
theorem interpolate_no_pct (sec : IniSection) (fuel : Nat) (l : List Char)
    (h : '%' ∉ l) : interpolate sec (fuel + 1) l = some l := by
  simp [interpolate, interpLevel_text_no_pct sec (interpolate sec fuel) l h]

/-- A value without newlines needs no continuation-line escaping. -/
theorem writeEscape_no_nl (l : List Char) (h : '\n' ∉ l) :
    writeEscape l = l := by
  induction l with
  | nil => rfl
  | cons c rest ih =>
      rw [List.mem_cons] at h
      push_neg at h
      simp [writeEscape, Ne.symm h.1, ih h.2]

/-- Universal-newlines translation is the identity without carriage
returns. -/
theorem univNL_no_cr (l : List Char) (h : '\r' ∉ l) :
    univNL l = l := by
  unfold univNL
  induction l with
  | nil => rfl
  | cons c rest ih =>
      rw [List.mem_cons] at h
      push_neg at h
      simp [univNLGo, Ne.symm h.1, ih h.2]

/-- A stream without newlines is a single line. -/
theorem splitOnNL_no_nl (l : List Char) (h : '\n' ∉ l) :
    splitOnNL l = [l] := by
  induction l with
  | nil => rfl
  | cons c rest ih =>
      rw [List.mem_cons] at h
      push_neg at h
      simp [splitOnNL, Ne.symm h.1, ih h.2]

/-- Unpacking the conjuncts of `cleanCredential`. -/
theorem cleanCredential_spec (v : String) (h : cleanCredential v = true) :
    '%' ∉ v.data ∧ '\n' ∉ v.data ∧ '\r' ∉ v.data ∧
    lstripChars v.data = v.data ∧ rstripChars v.data = v.data := by
  unfold cleanCredential at h
  simp only [Bool.and_eq_true, decide_eq_true_eq] at h
  exact ⟨h.1.1.1.1, h.1.1.1.2, h.1.1.2, h.1.2, h.2⟩

/-- A clean credential passes the `before_set` syntax check. -/
theorem clean_before_set (v : String) (h : cleanCredential v = true) :
    before_set_ok v = true :=
  before_set_ok_no_pct v (cleanCredential_spec v h).1

/-- The INI store round-trips a clean credential unchanged. -/
theorem written_read_back_clean (v : String) (h : cleanCredential v = true) :
    written_read_back v = some v := by
  obtain ⟨_, hn, hr, hl, hrs⟩ := cleanCredential_spec v h
  unfold written_read_back
  rw [writeEscape_no_nl v.data hn, univNL_no_cr v.data hr, splitOnNL_no_nl v.data hn]
  simp [collectChunks, joinNL, stripChars, hl, hrs, String_mk_data]

/-- `config.get` on the store the program writes for a `%`-free value
returns that value. -/
theorem config_get_single (v : String) (hnp : '%' ∉ v.data) :
    config_get [("openai", [("api_key", v)])] "openai" "api_key" = some v := by
  have h10 : interpolate [("api_key", v)] 10 v.data = some v.data :=
    interpolate_no_pct [("api_key", v)] 9 v.data hnp
  simp [config_get, assoc_find, h10, String_mk_data]

/-- Shape of a `get_api_key` run on an existing file: the state is
untouched and no prompt or write happens; the outcome follows the
read-then-get pipeline. -/
theorem get_api_key_read (sf : StoredFile) (input : String) :
    get_api_key ⟨some sf⟩ input =
      { outcome :=
          match read_config sf with
          | none => KeyOutcome.crash
          | some cfg =>
              match config_get cfg "openai" "api_key" with
              | none => KeyOutcome.crash
              | some v => KeyOutcome.ok v,
        state := ⟨some sf⟩, prompts := 0, writes := 0 } := by
  unfold get_api_key
  cases hr : read_config sf with
  | none => simp [hr]
  | some cfg => cases hg : config_get cfg "openai" "api_key" <;> simp [hr, hg]

/-- C1, counterexample: with `config.ini` missing and an empty prompt
response, `get_api_key` still performs a file write — the configuration
file IS written, and the next read finds an empty `api_key` —
contradicting the claim that no configuration file is written. -/
theorem c1_empty_prompt_writes_file :
    (get_api_key ⟨none⟩ "").writes = 1 ∧
    (get_api_key ⟨none⟩ "").state.file = some (StoredFile.written "") ∧
    read_config (StoredFile.written "") = some [("openai", [("api_key", "")])] :=
  ⟨rfl, rfl, rfl⟩

/-- C1, amended: when the configuration file is missing, `get_api_key`
prompts exactly once; a value passing the INI set-value syntax check (in
particular the empty value) is then written exactly once — the empty
value is persisted and makes the CLI signal failure (`click.Abort`) —
while a value failing the check (a stray `%`) raises `ValueError` after
the prompt with no write at all. -/
theorem c1_missing_file_prompts_once (st : FsState) (input : String)
    (h : st.file = none) :
    (get_api_key st input).prompts = 1 ∧
    (before_set_ok input = true → (get_api_key st input).writes = 1) ∧
    (before_set_ok input = false →
      (get_api_key st input).outcome = KeyOutcome.crash ∧
      (get_api_key st input).writes = 0) ∧
    (input = "" → (cli_setup st input).1 = CliOutcome.abort) := by
  obtain ⟨f⟩ := st
  cases h
  refine ⟨?_, ?_, ?_, ?_⟩
  · cases hbs : before_set_ok input <;> simp [get_api_key, hbs]
  · intro hbs; simp [get_api_key, hbs]
  · intro hbs; simp [get_api_key, hbs]
  · intro h2; subst h2; rfl

/-- C1, witness for the amended theorem at the missing-file state with an
empty prompt response. -/
theorem c1_missing_file_prompts_once_holds :
    (get_api_key ⟨none⟩ "").prompts = 1 ∧
    (before_set_ok "" = true → (get_api_key ⟨none⟩ "").writes = 1) ∧
    (before_set_ok "" = false →
      (get_api_key ⟨none⟩ "").outcome = KeyOutcome.crash ∧
      (get_api_key ⟨none⟩ "").writes = 0) ∧
    ("" = "" → (cli_setup ⟨none⟩ "").1 = CliOutcome.abort) :=
  c1_missing_file_prompts_once ⟨none⟩ "" rfl

/-- C2, counterexample: in `get_quota` a transport-level fault is NOT
caught and normalized — it propagates as an uncaught crash — and a
200 response whose body lacks the `data` field also crashes rather than
yielding a `MalformedResponse` failure. -/
theorem c2_get_quota_crashes :
    get_quota (HttpResult.transportError "connection timed out") = QuotaOutcome.crash ∧
    get_quota (HttpResult.success 200 ⟨none⟩) = QuotaOutcome.crash :=
  ⟨rfl, rfl⟩

/-- C2, amended: the five `try`-wrapped commands (`generate_text`,
`generate_image`, `summarize`, `find_bug`, `grammar_correct`) catch every
exception in the request path and print a failure message — none of them
can crash — but `get_quota` catches nothing: a transport fault or a
missing `data` field propagates as an uncaught crash, while a non-200
status is handled by printing the status-code failure. -/
theorem c2_error_recovery (rt rs rf rg : ApiResult CompletionResponse)
    (ri : ApiResult ImageResponse) (e : String) (status : Nat)
    (body : UsageBody) (h : status ≠ 200) :
    generate_text_run rt ≠ RunOutcome.crash ∧
    generate_image_run ri ≠ RunOutcome.crash ∧
    summarize_run rs ≠ RunOutcome.crash ∧
    find_bug_run rf ≠ RunOutcome.crash ∧
    grammar_correct_run rg ≠ RunOutcome.crash ∧
    get_quota (HttpResult.transportError e) = QuotaOutcome.crash ∧
    get_quota (HttpResult.success status body) = QuotaOutcome.httpFailure status ∧
    get_quota (HttpResult.success 200 ⟨none⟩) = QuotaOutcome.crash := by
  refine ⟨?_, ?_, ?_, ?_, ?_, rfl, ?_, rfl⟩
  · cases rt with
    | raised m => simp [generate_text_run]
    | ok resp =>
        obtain ⟨choices⟩ := resp
        cases choices <;> simp [generate_text_run, completion_message]
  · cases ri with
    | raised m => simp [generate_image_run]
    | ok resp =>
        obtain ⟨ds⟩ := resp
        cases ds <;> simp [generate_image_run, image_url_of]
  · cases rs with
    | raised m => simp [summarize_run]
    | ok resp =>
        obtain ⟨choices⟩ := resp
        cases choices <;> simp [summarize_run, completion_message]
  · cases rf with
    | raised m => simp [find_bug_run]
    | ok resp =>
        obtain ⟨choices⟩ := resp
        cases choices <;> simp [find_bug_run, completion_message]
  · cases rg with
    | raised m => simp [grammar_correct_run]
    | ok resp =>
        obtain ⟨choices⟩ := resp
        cases choices <;> simp [grammar_correct_run, completion_message]
  · simp [get_quota, h]

/-- C2, witness for the amended theorem at concrete API outcomes and a
401 usage response. -/
theorem c2_error_recovery_holds :
    generate_text_run (ApiResult.raised "boom") ≠ RunOutcome.crash ∧
    generate_image_run (ApiResult.ok ⟨[⟨"https://a/b.png"⟩]⟩) ≠ RunOutcome.crash ∧
    summarize_run (ApiResult.ok ⟨[]⟩) ≠ RunOutcome.crash ∧
    find_bug_run (ApiResult.raised "oops") ≠ RunOutcome.crash ∧
    grammar_correct_run (ApiResult.ok ⟨[⟨" t "⟩]⟩) ≠ RunOutcome.crash ∧
    get_quota (HttpResult.transportError "dns failure") = QuotaOutcome.crash ∧
    get_quota (HttpResult.success 401 ⟨some []⟩) = QuotaOutcome.httpFailure 401 ∧
    get_quota (HttpResult.success 200 ⟨none⟩) = QuotaOutcome.crash :=
  c2_error_recovery (ApiResult.raised "boom") (ApiResult.ok ⟨[]⟩)
    (ApiResult.raised "oops") (ApiResult.ok ⟨[⟨" t "⟩]⟩)
    (ApiResult.ok ⟨[⟨"https://a/b.png"⟩]⟩) "dns failure" 401 ⟨some []⟩ (by decide)

/-- C3, counterexample: when `config.ini` exists but has no `openai`
section, `get_api_key` raises an uncaught exception (crash) instead of
signalling `Failure(ConfigReadError)`. -/
theorem c3_corrupt_config_crashes :
    (get_api_key ⟨some (StoredFile.iniData [])⟩ "unused").outcome = KeyOutcome.crash :=
  rfl

/-- C3, amended: when the configuration file exists but does not contain
section `openai` with key `api_key`, `get_api_key` crashes with an
uncaught `configparser` exception; no `ConfigReadError` value exists in
the code. -/
theorem c3_corrupt_config (cfg : ConfigData) (input : String)
    (h : cfg_get cfg "openai" "api_key" = none) :
    (get_api_key ⟨some (StoredFile.iniData cfg)⟩ input).outcome = KeyOutcome.crash := by
  have hcg : config_get cfg "openai" "api_key" = none := by
    unfold config_get
    unfold cfg_get at h
    cases hs : assoc_find cfg "openai" with
    | none => simp
    | some s =>
        cases hk : assoc_find s "api_key" with
        | none => simp [hk]
        | some v => rw [hs] at h; simp [hk] at h
  rw [get_api_key_read]
  simp [read_config, hcg]

/-- C3, witness for the amended theorem at a config file with no
sections. -/
theorem c3_corrupt_config_holds :
    (get_api_key ⟨some (StoredFile.iniData [])⟩ "unused").outcome = KeyOutcome.crash :=
  c3_corrupt_config [] "unused" rfl

/-- C4, counterexample: a 2xx-but-not-200 status (here 201) with a
well-formed body is NOT parsed into usage rows — `get_quota` compares
against exactly 200 and reports every other code, including other 2xx
codes, as a status failure. -/
theorem c4_201_not_parsed :
    get_quota (HttpResult.success 201 ⟨some [⟨"gpt", "5", "100"⟩]⟩) =
      QuotaOutcome.httpFailure 201 ∧
    get_quota (HttpResult.success 201 ⟨some [⟨"gpt", "5", "100"⟩]⟩) ≠
      QuotaOutcome.table [⟨"gpt", "5", "100"⟩] :=
  ⟨rfl, by decide⟩

/-- C4, amended: any status other than exactly 200 yields the status-code
failure with no usage rows and no body parsing — in particular 401 yields
the failure with code 401 — and conversely a status of exactly 200 (not
every 2xx) parses the body's `data` field into usage rows. -/
theorem c4_status_handling (status : Nat) (body anyBody : UsageBody)
    (rows : List UsageRow) (h : status ≠ 200) :
    get_quota (HttpResult.success status body) = QuotaOutcome.httpFailure status ∧
    get_quota (HttpResult.success 401 anyBody) = QuotaOutcome.httpFailure 401 ∧
    get_quota (HttpResult.success 200 ⟨some rows⟩) = QuotaOutcome.table rows := by
  refine ⟨?_, rfl, rfl⟩
  simp [get_quota, h]

/-- C4, witness for the amended theorem at status 401 with a body the
parser would choke on (absent `data` field), showing it is never read. -/
theorem c4_status_handling_holds :
    get_quota (HttpResult.success 401 ⟨none⟩) = QuotaOutcome.httpFailure 401 ∧
    get_quota (HttpResult.success 401 ⟨none⟩) = QuotaOutcome.httpFailure 401 ∧
    get_quota (HttpResult.success 200 ⟨some []⟩) = QuotaOutcome.table [] :=
  c4_status_handling 401 ⟨none⟩ ⟨none⟩ [] (by decide)

/-- C5: every `find_bug` invocation sends engine `"davinci-codex"` —
there is no model argument that could change it — and the prompt wraps
the input code in the fixed instruction template. -/
theorem c5_find_bug_engine_fixed (code language : String) (max_tokens : Nat)
    (temperature : ℚ) :
    (find_bug_request code language max_tokens temperature).engine =
      some "davinci-codex" ∧
    (find_bug_request code language max_tokens temperature).prompt =
      some ("Find a bug in the following " ++ language ++ " code:\n\n" ++ code
        ++ "\n\nBug description:") :=
  ⟨rfl, rfl⟩

/-- C6, counterexample: the `summarize` call site passes no `temperature`
parameter at all, so the claim that every text-completion command
populates exactly model, prompt, max-tokens and temperature fails. -/
theorem c6_summarize_omits_temperature :
    (summarize_request "some text" "davinci" 50).temperature = none :=
  rfl

/-- C6, amended: `generate_text`, `find_bug` and `grammar_correct`
populate model (as `engine`), prompt, max-tokens and temperature, while
`summarize` populates the first three but omits temperature; every one of
the four also passes the completion-endpoint parameters `n=1` and
`stop=None`, and none passes a parameter of the image endpoint. -/
theorem c6_request_parameters (prompt model text code language gtext : String)
    (mt ml fbt : Nat) (temp fbtemp : ℚ) :
    completion_core_only (generate_text_request prompt model mt temp) = true ∧
    (generate_text_request prompt model mt temp).temperature = some temp ∧
    completion_core_only (find_bug_request code language fbt fbtemp) = true ∧
    (find_bug_request code language fbt fbtemp).temperature = some fbtemp ∧
    completion_core_only (grammar_correct_request gtext model) = true ∧
    (grammar_correct_request gtext model).temperature = some (0.5 : ℚ) ∧
    completion_core_only (summarize_request text model ml) = true ∧
    (summarize_request text model ml).temperature = none :=
  ⟨rfl, rfl, rfl, rfl, rfl, rfl, rfl, rfl⟩

/-- C7: the dispatcher extracts exactly the enumerated field — the
completion response with one choice of text `"  hello world  "` yields
the trimmed `"hello world"`, and the image response with one datum yields
its URL `"https://x/y.png"`. -/
theorem c7_field_extraction :
    completion_message ⟨[⟨"  hello world  "⟩]⟩ = some "hello world" ∧
    image_url_of ⟨[⟨"https://x/y.png"⟩]⟩ = some "https://x/y.png" := by
  exact ⟨by decide, rfl⟩

/-- C8, counterexample: credential resolution is not idempotent over all
initial states — from a missing file with the padded prompt answer
`"  x  "`, the first call returns the raw input while the second call
returns the whitespace-stripped value the INI store read back. -/
theorem c8_not_idempotent :
    (get_api_key ⟨none⟩ "  x  ").outcome = KeyOutcome.ok "  x  " ∧
    (get_api_key (get_api_key ⟨none⟩ "  x  ").state "  x  ").outcome =
      KeyOutcome.ok "x" ∧
    KeyOutcome.ok "x" ≠ KeyOutcome.ok "  x  " :=
  ⟨rfl, by decide, by decide⟩

/-- C8, amended: two successive `get_api_key` calls perform at most one
interactive prompt and at most one file write and produce the same
outcome, provided that when the store is missing the prompted credential
round-trips the INI store unchanged (no `%`, no newline or carriage
return, no surrounding whitespace); padded values come back stripped and
stray-`%` values crash, as the counterexample shows. -/
theorem c8_resolution_idempotent (st : FsState) (in1 in2 : String)
    (h : st.file = none → cleanCredential in1 = true) :
    (get_api_key (get_api_key st in1).state in2).outcome =
      (get_api_key st in1).outcome ∧
    (get_api_key st in1).prompts + (get_api_key (get_api_key st in1).state in2).prompts ≤ 1 ∧
    (get_api_key st in1).writes + (get_api_key (get_api_key st in1).state in2).writes ≤ 1 := by
  obtain ⟨f⟩ := st
  cases f with
  | none =>
      have hc := h rfl
      have hbs : before_set_ok in1 = true := clean_before_set in1 hc
      have hnp : '%' ∉ in1.data := (cleanCredential_spec in1 hc).1
      have h1 : get_api_key ⟨none⟩ in1 =
          { outcome := KeyOutcome.ok in1,
            state := ⟨some (StoredFile.written in1)⟩, prompts := 1, writes := 1 } := by
        simp [get_api_key, hbs]
      have hcfg : read_config (StoredFile.written in1) =
          some [("openai", [("api_key", in1)])] := by
        simp [read_config, written_read_back_clean in1 hc]
      rw [h1, get_api_key_read]
      simp [hcfg, config_get_single in1 hnp]
  | some sf =>
      rw [get_api_key_read sf in1]
      rw [get_api_key_read sf in2]
      exact ⟨rfl, Nat.zero_le 1, Nat.zero_le 1⟩

/-- C8, witness for the amended theorem at a missing store and a clean
credential. -/
theorem c8_resolution_idempotent_holds :
    ((⟨none⟩ : FsState).file = none → cleanCredential "sk-key" = true) ∧
    ((get_api_key (get_api_key ⟨none⟩ "sk-key").state "sk-key").outcome =
        (get_api_key ⟨none⟩ "sk-key").outcome ∧
      (get_api_key ⟨none⟩ "sk-key").prompts +
        (get_api_key (get_api_key ⟨none⟩ "sk-key").state "sk-key").prompts ≤ 1 ∧
      (get_api_key ⟨none⟩ "sk-key").writes +
        (get_api_key (get_api_key ⟨none⟩ "sk-key").state "sk-key").writes ≤ 1) :=
  ⟨fun _ => by decide, c8_resolution_idempotent ⟨none⟩ "sk-key" "sk-key" (fun _ => by decide)⟩

/-- C9, counterexample: a file whose stored `api_key` is `"100%"` makes
`config.get` raise an interpolation error — `get_api_key` crashes and
returns nothing — and a stored `"100%%"` is returned as the transformed
`"100%"`, not the stored raw value; both contradict the claim that the
stored value is always returned exactly. -/
theorem c9_interpolation_breaks_read :
    (get_api_key ⟨some (StoredFile.iniData [("openai", [("api_key", "100%")])])⟩
        "u").outcome = KeyOutcome.crash ∧
    (get_api_key ⟨some (StoredFile.iniData [("openai", [("api_key", "100%%")])])⟩
        "u").outcome = KeyOutcome.ok "100%" ∧
    KeyOutcome.ok "100%" ≠ KeyOutcome.ok "100%%" :=
  ⟨by decide, by decide, by decide⟩

/-- C9, amended: when the configuration file exists and stores an
`api_key` value, `get_api_key` performs no prompt and no write and leaves
the state unchanged; it returns exactly the stored value whenever that
value is free of `%` — including the empty string — while values
containing `%` are transformed by interpolation or raise, as the
counterexample shows. -/
theorem c9_existing_file_read_only (cfg : ConfigData) (input v : String)
    (h : cfg_get cfg "openai" "api_key" = some v) :
    (get_api_key ⟨some (StoredFile.iniData cfg)⟩ input).prompts = 0 ∧
    (get_api_key ⟨some (StoredFile.iniData cfg)⟩ input).writes = 0 ∧
    (get_api_key ⟨some (StoredFile.iniData cfg)⟩ input).state =
      ⟨some (StoredFile.iniData cfg)⟩ ∧
    ('%' ∉ v.data →
      (get_api_key ⟨some (StoredFile.iniData cfg)⟩ input).outcome = KeyOutcome.ok v) := by
  rw [get_api_key_read]
  refine ⟨rfl, rfl, rfl, fun hnp => ?_⟩
  unfold cfg_get at h
  cases hs : assoc_find cfg "openai" with
  | none => simp [hs] at h
  | some s =>
      simp only [hs] at h
      have h10 : interpolate s 10 v.data = some v.data :=
        interpolate_no_pct s 9 v.data hnp
      have hcg : config_get cfg "openai" "api_key" = some v := by
        unfold config_get
        simp only [hs, h]
        rw [h10]
        simp [String_mk_data]
      simp [read_config, hcg]

/-- C9, witness at a config file storing the empty string. -/
theorem c9_existing_file_read_only_holds :
    cfg_get [("openai", [("api_key", "")])] "openai" "api_key" = some "" ∧
    ((get_api_key ⟨some (StoredFile.iniData [("openai", [("api_key", "")])])⟩
        "ignored").prompts = 0 ∧
      (get_api_key ⟨some (StoredFile.iniData [("openai", [("api_key", "")])])⟩
        "ignored").writes = 0 ∧
      (get_api_key ⟨some (StoredFile.iniData [("openai", [("api_key", "")])])⟩
        "ignored").state = ⟨some (StoredFile.iniData [("openai", [("api_key", "")])])⟩ ∧
      ('%' ∉ "".data →
        (get_api_key ⟨some (StoredFile.iniData [("openai", [("api_key", "")])])⟩
          "ignored").outcome = KeyOutcome.ok "")) :=
  ⟨rfl, c9_existing_file_read_only [("openai", [("api_key", "")])] "ignored" "" rfl⟩

/-- C10, counterexample: the credential `"  padded  "` entered at the
first-run prompt is NOT read back unchanged — the INI store strips the
surrounding whitespace, so the next invocation returns `"padded"`. -/
theorem c10_padding_lost :
    (get_api_key ⟨none⟩ "  padded  ").outcome = KeyOutcome.ok "  padded  " ∧
    (get_api_key (get_api_key ⟨none⟩ "  padded  ").state "next").outcome =
      KeyOutcome.ok "padded" ∧
    KeyOutcome.ok "padded" ≠ KeyOutcome.ok "  padded  " :=
  ⟨rfl, by decide, by decide⟩

/-- C10, amended: a credential that round-trips the INI store unchanged
(no `%`, no newline or carriage return, no surrounding whitespace) is
written under section `openai`, key `api_key`, and the next
`get_api_key` invocation reads exactly it back; padded values come back
stripped and stray-`%` values raise `ValueError` before any write, as
the counterexample shows. -/
theorem c10_credential_roundtrip (input second : String)
    (h : cleanCredential input = true) :
    (get_api_key ⟨none⟩ input).state.file = some (StoredFile.written input) ∧
    read_config (StoredFile.written input) = some [("openai", [("api_key", input)])] ∧
    (get_api_key (get_api_key ⟨none⟩ input).state second).outcome =
      KeyOutcome.ok input := by
  have hbs : before_set_ok input = true := clean_before_set input h
  have hnp : '%' ∉ input.data := (cleanCredential_spec input h).1
  have h1 : get_api_key ⟨none⟩ input =
      { outcome := KeyOutcome.ok input,
        state := ⟨some (StoredFile.written input)⟩, prompts := 1, writes := 1 } := by
    simp [get_api_key, hbs]
  have hcfg : read_config (StoredFile.written input) =
      some [("openai", [("api_key", input)])] := by
    simp [read_config, written_read_back_clean input h]
  refine ⟨by rw [h1], hcfg, ?_⟩
  rw [h1, get_api_key_read]
  simp [hcfg, config_get_single input hnp]

/-- C10, witness for the amended theorem at a clean credential. -/
theorem c10_credential_roundtrip_holds :
    cleanCredential "sk-abc123" = true ∧
    ((get_api_key ⟨none⟩ "sk-abc123").state.file =
        some (StoredFile.written "sk-abc123") ∧
      read_config (StoredFile.written "sk-abc123") =
        some [("openai", [("api_key", "sk-abc123")])] ∧
      (get_api_key (get_api_key ⟨none⟩ "sk-abc123").state "unused").outcome =
        KeyOutcome.ok "sk-abc123") :=
  ⟨by decide, c10_credential_roundtrip "sk-abc123" "unused" (by decide)⟩
